import Mathlib

/-!
Verification of the SynthSeg training driver
(`Models/SynthSeg/SynthSeg/training.py`).

The driver is embedded shallowly: the Python string manipulations used for
checkpoint filenames are modelled over `List Char`, and the two functions
`training` and `train_model` are modelled as pure functions that return the
trace of externally visible actions (directory creation, generator and
network construction, model loading, compilation, fitting) together with the
exception they raise, if any.  Numeric parameters are Lean `Int`/`Nat`; the
learning rate is carried around as an uninterpreted `Rat` (the code never
computes with it, it only hands it to the optimiser).
-/

/-! ## Python exceptions raised by the modelled code -/

/-- Exceptions the modelled fragment of the code can raise: `assert` failure
(line 230 of training.py), `IndexError` from indexing `[1]` into the result of
`str.split` (line 333), `ValueError` from `int(...)` on a non-numeric string
(line 333). -/
inductive PyError where
  | assertionError : String → PyError
  | indexError : PyError
  | valueError : String → PyError
deriving DecidableEq, Repr

/-- Result of a Python expression that can raise: either a value or a raised
exception. -/
inductive PyResult (α : Type) where
  | ok : α → PyResult α
  | raised : PyError → PyResult α
deriving DecidableEq, Repr

/-! ## Python string primitives

These model the exact Python string operations appearing in training.py:
`str.split(sep)` (with non-empty `sep`), the substring test `sep in s`,
`os.path.basename`, `os.path.join`, the slice `s[1:-3]`, `int(s)` and the
format `'%03d' % n`. -/

/-- If `sep` is a leading segment of `xs`, return the remainder after it. -/
def matchSep : List Char → List Char → Option (List Char)
  | [], rest => some rest
  | _ :: _, [] => none
  | s :: ss, c :: cs => if s = c then matchSep ss cs else none

/-- Fuelled worker for Python `str.split(sep)` over character lists.  At each
position, either `sep` matches and a piece boundary is emitted, or one
character is moved into the current piece.  The fuel is an upper bound on the
number of steps; `pySplit` supplies enough of it.  (Python forbids an empty
separator; this model is only used with the non-empty separators of the
source.) -/
def pySplitFuel (sep : List Char) : Nat → List Char → List (List Char)
  | 0, xs => [xs]
  | fuel + 1, xs =>
    match matchSep sep xs with
    | some rest => [] :: pySplitFuel sep fuel rest
    | none =>
      match xs with
      | [] => [[]]
      | c :: cs =>
        match pySplitFuel sep fuel cs with
        | [] => [[c]]
        | p :: ps => (c :: p) :: ps

/-- Python `s.split(sep)` for a non-empty separator. -/
def pySplit (s sep : String) : List String :=
  (pySplitFuel sep.toList (s.toList.length + 1) s.toList).map String.mk

/-- Python substring test `sub in s` (for the non-empty tags used in the
source): true exactly when `sub` occurs in `s`. -/
def pyIn (sub s : String) : Bool :=
  decide (sub = "") || decide (2 ≤ (pySplit s sub).length)

/-- Python `os.path.basename` on POSIX paths: the part after the last slash. -/
def pyBasename (p : String) : String :=
  (pySplit p "/").getLastD ""

/-- Python `os.path.join(a, b)` for POSIX paths and two components. -/
def osPathJoin (a b : String) : String :=
  if b.toList.head? = some '/' then b
  else if a = "" then b
  else if a.toList.getLast? = some '/' then a ++ b
  else a ++ "/" ++ b

/-- Python slice `s[1:-3]`: drop the first character and the last three
(never raises; short strings give `""`). -/
def slice1m3 (s : String) : String :=
  String.mk (((s.toList.drop 1).dropLast.dropLast).dropLast)

/-- Characters-to-number reading for `int(...)`: all characters must be
decimal digits and there must be at least one. -/
def digitsToNat (cs : List Char) : Option Nat :=
  if cs = [] then none
  else if cs.all Char.isDigit then
    some (cs.foldl (fun a c => 10 * a + (c.toNat - 48)) 0)
  else none

/-- Surrounding-whitespace stripping, as `int(...)` performs on its string
argument. -/
def trimChars (cs : List Char) : List Char :=
  ((cs.dropWhile Char.isWhitespace).reverse.dropWhile Char.isWhitespace).reverse

/-- Python `int(s)`: surrounding whitespace is stripped, an optional sign is
allowed, the rest must be one or more decimal digits.  (Underscore digit
grouping, accepted by CPython since 3.6, is not modelled; no string in play
contains one.)  `none` models the raised `ValueError`. -/
def pyInt (s : String) : Option Int :=
  match trimChars s.toList with
  | '-' :: rest => (digitsToNat rest).map (fun n => -(n : Int))
  | '+' :: rest => (digitsToNat rest).map (fun n => (n : Int))
  | cs => (digitsToNat cs).map (fun n => (n : Int))

/-- Python `'%03d' % n`: decimal rendering of `n` zero-padded to a minimum
total width of three characters (the sign counts towards the width). -/
def pyFmt03d (n : Int) : String :=
  if n < 0 then
    let d := toString n.natAbs
    "-" ++ String.mk (List.replicate (2 - d.length) '0') ++ d
  else
    let d := toString n.toNat
    String.mk (List.replicate (3 - d.length) '0') ++ d

/-! ## Checkpoint filename formatting and parsing -/

/-- The checkpoint filename the driver builds for the last wl2 snapshot and,
with tag `m`, the basename the per-epoch saver produces for epoch `e`:
`m + '_' + '%03d' % e + '.h5'` (training.py lines 299 and 322). -/
def checkpointBasename (metric_type : String) (e : Int) : String :=
  metric_type ++ "_" ++ pyFmt03d e ++ ".h5"

/-- Epoch recovery on resume, training.py line 333:
`int(os.path.basename(path_checkpoint).split(metric_type)[1][1:-3])`.
`[1]` raises `IndexError` when the split has fewer than two pieces, and
`int` raises `ValueError` on a non-numeric remainder. -/
def parseEpoch (metric_type path_checkpoint : String) : PyResult Int :=
  match (pySplit (pyBasename path_checkpoint) metric_type).get? 1 with
  | none => PyResult.raised PyError.indexError
  | some piece =>
    match pyInt (slice1m3 piece) with
    | none => PyResult.raised (PyError.valueError (slice1m3 piece))
    | some n => PyResult.ok n

/-! ## The training driver as a trace-producing function

`train_model` and `training` are modelled as pure functions returning the
list of externally visible actions they perform, in order, together with the
exception that aborted the run (if any).  Keras objects (models, optimisers,
callbacks) are represented by the data the driver passes to them. -/

/-- The two Keras callbacks installed by `train_model` (lines 322-327):
the per-epoch `ModelCheckpoint` saver with its filepath pattern, and the
TensorBoard logger with its log directory. -/
inductive Callback where
  | modelCheckpoint : String → Callback
  | tensorBoard : String → Callback
deriving DecidableEq, Repr

/-- Externally visible actions of the driver, in program order:
directory creation, `BrainGenerator` construction (recording the
`output_div_by_n` argument and the resolved output labels), U-Net
construction (recording `nb_labels` and `nb_levels`), construction of the
training input generator (with an identifier), full-model reload, by-name
weight loading, compilation with an Adam optimiser at a learning rate, and
fitting (generator id, epochs, steps per epoch, callbacks, initial epoch). -/
inductive Event where
  | mkdir : String → Event
  | constructGenerator : Nat → List Int → Event
  | buildUnet : Nat → Nat → Event
  | buildInputGenerator : Nat → Event
  | loadModel : String → Event
  | loadWeightsByName : String → Event
  | compile : Rat → Event
  | fit : Nat → Int → Int → List Callback → Int → Event
deriving DecidableEq, Repr

/-- Outcome of running a piece of the driver: the events it performed, and
the exception that ended it early (or `none` if it ran to completion). -/
structure RunResult where
  events : List Event
  error : Option PyError
deriving DecidableEq, Repr

/-- The filepath pattern handed to `ModelCheckpoint` (line 322):
`os.path.join(model_dir, '%s_\x7bepoch:03d\x7d.h5' % metric_type)`. -/
def saveFilePattern (model_dir metric_type : String) : String :=
  osPathJoin model_dir (metric_type ++ "_\x7bepoch:03d\x7d.h5")

/-- The callback list of `train_model` (lines 322-327): always the
`ModelCheckpoint` saver; additionally TensorBoard for the dice phase. -/
def checkpointCallbacks (model_dir metric_type : String) : List Callback :=
  [Callback.modelCheckpoint (saveFilePattern model_dir metric_type)] ++
    (if metric_type = "dice" then
       [Callback.tensorBoard (osPathJoin model_dir "logs")]
     else [])

/-- Embedding of `train_model` (training.py lines 306-352).  `gen`
identifies the input generator handed in.  The checkpoint branch follows the
source exactly: when the metric tag occurs in the checkpoint path the initial
epoch is parsed from the basename (line 333, which can raise); with
`reinitialise_momentum` unset the full model is then reloaded and not
recompiled (lines 334-339), otherwise weights are loaded by name and the
model recompiled (line 341); with no checkpoint the model is compiled and
fitting starts at epoch 0. -/
def train_model (gen : Nat) (learning_rate : Rat) (n_epochs n_steps : Int)
    (model_dir metric_type : String) (path_checkpoint : Option String)
    (reinitialise_momentum : Bool) : RunResult :=
  let log_dir := osPathJoin model_dir "logs"
  let callbacks := checkpointCallbacks model_dir metric_type
  let pre := [Event.mkdir model_dir, Event.mkdir log_dir]
  match path_checkpoint with
  | none =>
    ⟨pre ++ [Event.compile learning_rate,
             Event.fit gen n_epochs n_steps callbacks 0], none⟩
  | some p =>
    if pyIn metric_type p then
      match parseEpoch metric_type p with
      | PyResult.raised e => ⟨pre, some e⟩
      | PyResult.ok init_epoch =>
        if reinitialise_momentum = false then
          ⟨pre ++ [Event.loadModel p,
                   Event.fit gen n_epochs n_steps callbacks init_epoch], none⟩
        else
          ⟨pre ++ [Event.loadWeightsByName p, Event.compile learning_rate,
                   Event.fit gen n_epochs n_steps callbacks init_epoch], none⟩
    else
      ⟨pre ++ [Event.loadWeightsByName p, Event.compile learning_rate,
               Event.fit gen n_epochs n_steps callbacks 0], none⟩

/-- External label-list resolution.  `utils.get_list_labels` lives in
`ext/lab2im` (not part of the specified sources), so it is kept
uninterpreted: an environment supplies the resolved label list for a given
`label_list` argument and optional `labels_dir` argument. -/
structure Env where
  get_list_labels : Option (List Int) → Option String → List Int

/-- The parameters of `training` (lines 41-82) that the verified fragment
depends on; the purely generative parameters (priors, augmentation bounds,
resolution simulation) are forwarded verbatim to the `BrainGenerator` and
are not modelled individually. -/
structure TrainConfig where
  labels_dir : String
  model_dir : String
  generation_labels : Option (List Int)
  segmentation_labels : Option (List Int)
  n_levels : Nat
  lr : Rat
  wl2_epochs : Int
  dice_epochs : Int
  steps_per_epoch : Int
  checkpoint : Option String

/-- Resolved `generation_labels` (line 234). -/
def resolvedGenLabels (env : Env) (cfg : TrainConfig) : List Int :=
  env.get_list_labels cfg.generation_labels (some cfg.labels_dir)

/-- Resolved `segmentation_labels` (lines 235-238): resolved through
`get_list_labels` when given, else defaulted to the resolved
`generation_labels`. -/
def resolvedSegLabels (env : Env) (cfg : TrainConfig) : List Int :=
  match cfg.segmentation_labels with
  | some l => env.get_list_labels (some l) none
  | none => resolvedGenLabels env cfg

/-- Length of `np.unique(l)` (line 239): the number of distinct values. -/
def npUniqueLen (l : List Int) : Nat :=
  l.dedup.length

/-- The construction events of `training` before any phase runs (lines
242-292): one `BrainGenerator` with `output_div_by_n = 2 ** n_levels` and
`output_labels = segmentation_labels`, one U-Net with
`nb_labels = n_segmentation_labels` and `nb_levels = n_levels`, and one
training input generator (id 0).  The remaining constructor arguments are
config values forwarded verbatim and are not recorded. -/
def setupEvents (env : Env) (cfg : TrainConfig) : List Event :=
  [Event.constructGenerator (2 ^ cfg.n_levels) (resolvedSegLabels env cfg),
   Event.buildUnet (npUniqueLen (resolvedSegLabels env cfg)) cfg.n_levels,
   Event.buildInputGenerator 0]

/-- The message of the epoch assertion (lines 230-231). -/
def epochAssertMsg (wl2_epochs dice_epochs : Int) : String :=
  "either wl2_epochs or dice_epochs must be positive, had " ++
    toString wl2_epochs ++ " and " ++ toString dice_epochs

/-- Embedding of `training` (training.py lines 41-303).  After the epoch
assertion and label resolution it constructs the generator, the U-Net and
the input generator, then runs the wl2 phase (if `wl2_epochs > 0`) and the
dice phase through `train_model`, handing the dice phase the final wl2
checkpoint `model_dir/wl2_%03d.h5 % wl2_epochs` in place of the
user-supplied one (line 299).  An exception in the wl2 phase propagates and
the dice phase never starts. -/
def training (env : Env) (cfg : TrainConfig) : RunResult :=
  if cfg.wl2_epochs > 0 ∨ cfg.dice_epochs > 0 then
    if cfg.wl2_epochs > 0 then
      let r1 := train_model 0 cfg.lr cfg.wl2_epochs cfg.steps_per_epoch
        cfg.model_dir "wl2" cfg.checkpoint false
      match r1.error with
      | some e => ⟨setupEvents env cfg ++ r1.events, some e⟩
      | none =>
        let ckpt := osPathJoin cfg.model_dir
          (checkpointBasename "wl2" cfg.wl2_epochs)
        let r2 := train_model 0 cfg.lr cfg.dice_epochs cfg.steps_per_epoch
          cfg.model_dir "dice" (some ckpt) false
        ⟨setupEvents env cfg ++ r1.events ++ r2.events, r2.error⟩
    else
      let r2 := train_model 0 cfg.lr cfg.dice_epochs cfg.steps_per_epoch
        cfg.model_dir "dice" cfg.checkpoint false
      ⟨setupEvents env cfg ++ r2.events, r2.error⟩
  else
    ⟨[], some (PyError.assertionError
      (epochAssertMsg cfg.wl2_epochs cfg.dice_epochs))⟩

/-! ## Auxiliary notions used by the theorems -/

/-- Interleave a separator between pieces (used to instantiate the Keras
filepath pattern). -/
def joinWith (sep : String) : List String → String
  | [] => ""
  | [x] => x
  | x :: y :: rest => x ++ sep ++ joinWith sep (y :: rest)

/-- Instantiation of the `ModelCheckpoint` filepath pattern at a concrete
epoch number, modelling Keras `filepath.format(epoch=...)`: every occurrence
of the `\x7bepoch:03d\x7d` placeholder is replaced by the zero-padded
three-digit decimal rendering of the epoch. -/
def instEpochPat (pat : String) (epoch : Int) : String :=
  joinWith (pyFmt03d epoch) (pySplit pat "\x7bepoch:03d\x7d")

/-- Recogniser for `fit` events. -/
def isFitEvent : Event → Bool
  | Event.fit _ _ _ _ _ => true
  | _ => false

/-- Recogniser for `BrainGenerator` construction events. -/
def isConstructGenEvent : Event → Bool
  | Event.constructGenerator _ _ => true
  | _ => false

/-- Recogniser for input-generator construction events. -/
def isBuildInputGenEvent : Event → Bool
  | Event.buildInputGenerator _ => true
  | _ => false

/-- A concrete label-resolution environment used by the witnesses. -/
def envW : Env :=
  ⟨fun l _ => l.getD [0]⟩

/-- A concrete configuration with zero epochs in both phases. -/
def cfgZero : TrainConfig :=
  ⟨"lab", "m", none, none, 5, 1, 0, 0, 10, none⟩

/-- A concrete well-formed configuration (merged segmentation labels, one wl2
epoch, two dice epochs, no checkpoint). -/
def cfgBasic : TrainConfig :=
  ⟨"lab", "m", some [0, 2, 3], some [0, 2, 2], 5, 1, 1, 2, 10, none⟩

/-- A concrete configuration whose user checkpoint contains the wl2 tag in a
directory component only. -/
def cfgWl2Crash : TrainConfig :=
  ⟨"lab", "m", none, none, 5, 1, 1, 1, 10, some "wl2/model.h5"⟩

/-- A concrete configuration with the wl2 phase disabled and no checkpoint. -/
def cfgDiceOnly : TrainConfig :=
  ⟨"lab", "m", none, none, 5, 1, 0, 3, 10, none⟩

/-! ## Helper lemmas -/

theorem parseEpoch_no_assert (tag p m : String) :
    parseEpoch tag p ≠ PyResult.raised (PyError.assertionError m) := by
  unfold parseEpoch
  split
  · simp
  · split <;> simp

theorem train_model_error_no_assert (gen : Nat) (lr : Rat) (nE nS : Int)
    (dir tag : String) (pc : Option String) (reinit : Bool) (m : String) :
    (train_model gen lr nE nS dir tag pc reinit).error ≠
      some (PyError.assertionError m) := by
  unfold train_model
  cases pc with
  | none => simp
  | some p =>
    by_cases h : pyIn tag p = true
    · simp only [h, if_true]
      cases hq : parseEpoch tag p with
      | ok n => cases reinit <;> simp [hq]
      | raised e =>
        simp only [hq]
        intro hc
        simp only [Option.some.injEq] at hc
        exact parseEpoch_no_assert tag p m (by rw [hq, hc])
    · simp [h]

/-! ## Claim theorems -/

/-- C1: with both wl2_epochs and dice_epochs nonpositive, training fails with
the epoch assertion and performs no action at all (no generator
construction, no sampling, no training step); with at least one of them
positive the check passes, i.e. no assertion error is ever raised by the
run. -/
theorem training_zero_epochs_fails_fast (env : Env) (cfg : TrainConfig) :
    (cfg.wl2_epochs ≤ 0 ∧ cfg.dice_epochs ≤ 0 →
      training env cfg = ⟨[], some (PyError.assertionError
        (epochAssertMsg cfg.wl2_epochs cfg.dice_epochs))⟩) ∧
    ((cfg.wl2_epochs > 0 ∨ cfg.dice_epochs > 0) →
      ∀ m, (training env cfg).error ≠ some (PyError.assertionError m)) := by
  constructor
  · rintro ⟨h1, h2⟩
    unfold training
    rw [if_neg (by omega)]
  · intro hp m
    unfold training
    rw [if_pos hp]
    by_cases hw : cfg.wl2_epochs > 0
    · rw [if_pos hw]
      dsimp only
      cases he : (train_model 0 cfg.lr cfg.wl2_epochs cfg.steps_per_epoch
          cfg.model_dir "wl2" cfg.checkpoint false).error with
      | some e =>
        simp only [he]
        intro hc
        simp only [Option.some.injEq] at hc
        exact train_model_error_no_assert 0 cfg.lr cfg.wl2_epochs
          cfg.steps_per_epoch cfg.model_dir "wl2" cfg.checkpoint false m
          (by rw [he, hc])
      | none =>
        simp only [he]
        exact train_model_error_no_assert 0 cfg.lr cfg.dice_epochs
          cfg.steps_per_epoch cfg.model_dir "dice" _ false m
    · rw [if_neg hw]
      dsimp only
      exact train_model_error_no_assert 0 cfg.lr cfg.dice_epochs
        cfg.steps_per_epoch cfg.model_dir "dice" cfg.checkpoint false m

/-- Witness for C1: the concrete zero-epoch configuration aborts with the
assertion message and an empty trace. -/
theorem training_zero_epochs_fails_fast_witness :
    training envW cfgZero =
      ⟨[], some (PyError.assertionError (epochAssertMsg 0 0))⟩ :=
  (training_zero_epochs_fails_fast envW cfgZero).1 ⟨by decide, by decide⟩

set_option maxRecDepth 100000 in
set_option maxHeartbeats 8000000 in
/-- C2: for both metric tags and every epoch number between 0 and 999,
formatting the checkpoint basename and then resume-parsing it recovers the
epoch: parsing inverts formatting. -/
theorem checkpoint_filename_roundtrip (m : String)
    (hm : m = "wl2" ∨ m = "dice") (e : Nat) (he : e ≤ 999) :
    parseEpoch m (checkpointBasename m (e : Int)) = PyResult.ok (e : Int) := by
  rcases hm with h | h <;> subst h <;> revert e <;> decide

/-- Witness for C2 at tag wl2 and epoch 5. -/
theorem checkpoint_filename_roundtrip_witness :
    parseEpoch "wl2" (checkpointBasename "wl2" 5) = PyResult.ok 5 :=
  checkpoint_filename_roundtrip "wl2" (Or.inl rfl) 5 (by decide)

/-- C8: the resume test checks the tag against the full checkpoint path while
the parse splits only the basename, so a checkpoint path whose directory
name contains the metric tag but whose basename does not match the
tag-underscore-digits pattern raises IndexError instead of resuming or
falling back to initial epoch 0. -/
theorem resume_parse_raises_on_tag_in_dirname :
    pyIn "dice" "dice_models/final.h5" = true ∧
    pyIn "dice" (pyBasename "dice_models/final.h5") = false ∧
    train_model 0 1 50 10000 "m" "dice" (some "dice_models/final.h5") false =
      ⟨[Event.mkdir "m", Event.mkdir "m/logs"], some PyError.indexError⟩ :=
  ⟨by decide, by decide, by rfl⟩

/-! ## Branch equations for train_model -/

theorem train_model_eq_fresh (gen : Nat) (lr : Rat) (nE nS : Int)
    (dir tag : String) (reinit : Bool) :
    train_model gen lr nE nS dir tag none reinit =
      ⟨[Event.mkdir dir, Event.mkdir (osPathJoin dir "logs"),
        Event.compile lr,
        Event.fit gen nE nS (checkpointCallbacks dir tag) 0], none⟩ := rfl

theorem train_model_eq_load (gen : Nat) (lr : Rat) (nE nS : Int)
    (dir tag p : String) (e : Int) (hin : pyIn tag p = true)
    (hq : parseEpoch tag p = PyResult.ok e) :
    train_model gen lr nE nS dir tag (some p) false =
      ⟨[Event.mkdir dir, Event.mkdir (osPathJoin dir "logs"),
        Event.loadModel p,
        Event.fit gen nE nS (checkpointCallbacks dir tag) e], none⟩ := by
  simp [train_model, hin, hq]

theorem train_model_eq_weights (gen : Nat) (lr : Rat) (nE nS : Int)
    (dir tag p : String) (e : Int) (hin : pyIn tag p = true)
    (hq : parseEpoch tag p = PyResult.ok e) :
    train_model gen lr nE nS dir tag (some p) true =
      ⟨[Event.mkdir dir, Event.mkdir (osPathJoin dir "logs"),
        Event.loadWeightsByName p, Event.compile lr,
        Event.fit gen nE nS (checkpointCallbacks dir tag) e], none⟩ := by
  simp [train_model, hin, hq]

theorem train_model_eq_noTag (gen : Nat) (lr : Rat) (nE nS : Int)
    (dir tag p : String) (reinit : Bool) (hin : pyIn tag p = false) :
    train_model gen lr nE nS dir tag (some p) reinit =
      ⟨[Event.mkdir dir, Event.mkdir (osPathJoin dir "logs"),
        Event.loadWeightsByName p, Event.compile lr,
        Event.fit gen nE nS (checkpointCallbacks dir tag) 0], none⟩ := by
  simp [train_model, hin]

theorem train_model_eq_raise (gen : Nat) (lr : Rat) (nE nS : Int)
    (dir tag p : String) (err : PyError) (reinit : Bool)
    (hin : pyIn tag p = true) (hq : parseEpoch tag p = PyResult.raised err) :
    train_model gen lr nE nS dir tag (some p) reinit =
      ⟨[Event.mkdir dir, Event.mkdir (osPathJoin dir "logs")], some err⟩ := by
  simp [train_model, hin, hq]

/-- C4: checkpoint handling on resume.  With a checkpoint containing the
metric tag and momentum kept, the full model is reloaded and not recompiled;
with the tag present but momentum reinitialised, or with the tag absent, the
weights are loaded by name and the model is compiled with the Adam optimiser
at the given learning rate; with no checkpoint the model is compiled and the
initial epoch is 0.  The initial epoch handed to fitting is the one parsed
from the checkpoint basename when the tag occurs in the path, and 0
otherwise. -/
theorem train_model_checkpoint_resume_cases (gen : Nat) (lr : Rat)
    (nE nS : Int) (dir tag : String) (pc : Option String) (reinit : Bool) :
    (pc = none →
      train_model gen lr nE nS dir tag pc reinit =
        ⟨[Event.mkdir dir, Event.mkdir (osPathJoin dir "logs"),
          Event.compile lr,
          Event.fit gen nE nS (checkpointCallbacks dir tag) 0], none⟩) ∧
    (∀ p e, pc = some p → pyIn tag p = true → reinit = false →
      parseEpoch tag p = PyResult.ok e →
      train_model gen lr nE nS dir tag pc reinit =
        ⟨[Event.mkdir dir, Event.mkdir (osPathJoin dir "logs"),
          Event.loadModel p,
          Event.fit gen nE nS (checkpointCallbacks dir tag) e], none⟩) ∧
    (∀ p e, pc = some p → pyIn tag p = true → reinit = true →
      parseEpoch tag p = PyResult.ok e →
      train_model gen lr nE nS dir tag pc reinit =
        ⟨[Event.mkdir dir, Event.mkdir (osPathJoin dir "logs"),
          Event.loadWeightsByName p, Event.compile lr,
          Event.fit gen nE nS (checkpointCallbacks dir tag) e], none⟩) ∧
    (∀ p, pc = some p → pyIn tag p = false →
      train_model gen lr nE nS dir tag pc reinit =
        ⟨[Event.mkdir dir, Event.mkdir (osPathJoin dir "logs"),
          Event.loadWeightsByName p, Event.compile lr,
          Event.fit gen nE nS (checkpointCallbacks dir tag) 0], none⟩) := by
  refine ⟨?_, ?_, ?_, ?_⟩
  · rintro rfl
    exact train_model_eq_fresh gen lr nE nS dir tag reinit
  · rintro p e rfl hin rfl hq
    exact train_model_eq_load gen lr nE nS dir tag p e hin hq
  · rintro p e rfl hin rfl hq
    exact train_model_eq_weights gen lr nE nS dir tag p e hin hq
  · rintro p rfl hin
    exact train_model_eq_noTag gen lr nE nS dir tag p reinit
      (by simp [hin])

/-- Witness for C4: resuming from a matching dice checkpoint at epoch 7
reloads the model and fits from initial epoch 7 without recompiling. -/
theorem train_model_checkpoint_resume_cases_witness :
    train_model 0 1 50 100 "m" "dice" (some "dice_007.h5") false =
      ⟨[Event.mkdir "m", Event.mkdir (osPathJoin "m" "logs"),
        Event.loadModel "dice_007.h5",
        Event.fit 0 50 100 (checkpointCallbacks "m" "dice") 7], none⟩ :=
  (train_model_checkpoint_resume_cases 0 1 50 100 "m" "dice"
      (some "dice_007.h5") false).2.1 "dice_007.h5" 7 rfl (by decide) rfl
    (by decide)

/-- C6: whenever train_model completes without raising, its final action is
fitting the model on the given generator with the requested epoch count, the
requested steps per epoch, the checkpoint-saving callbacks and the computed
initial epoch; and a compilation at the given learning rate happens exactly
unless the run is a full-model reload (checkpoint containing the tag with
momentum kept). -/
theorem train_model_compile_then_fit (gen : Nat) (lr : Rat) (nE nS : Int)
    (dir tag : String) (pc : Option String) (reinit : Bool)
    (hok : (train_model gen lr nE nS dir tag pc reinit).error = none) :
    (∃ e0, (train_model gen lr nE nS dir tag pc reinit).events.getLast? =
      some (Event.fit gen nE nS (checkpointCallbacks dir tag) e0)) ∧
    ((Event.compile lr ∈ (train_model gen lr nE nS dir tag pc reinit).events) ↔
      ¬ ∃ p, pc = some p ∧ pyIn tag p = true ∧ reinit = false) := by
  cases pc with
  | none =>
    rw [train_model_eq_fresh]
    constructor
    · exact ⟨0, rfl⟩
    · simp
  | some p =>
    by_cases hin : pyIn tag p = true
    · cases hq : parseEpoch tag p with
      | raised err =>
        rw [train_model_eq_raise gen lr nE nS dir tag p err reinit hin hq]
          at hok
        simp at hok
      | ok n =>
        cases reinit with
        | false =>
          rw [train_model_eq_load gen lr nE nS dir tag p n hin hq]
          constructor
          · exact ⟨n, rfl⟩
          · simp [hin]
        | true =>
          rw [train_model_eq_weights gen lr nE nS dir tag p n hin hq]
          constructor
          · exact ⟨n, rfl⟩
          · simp
    · have hfalse : pyIn tag p = false := by
        simpa using hin
      rw [train_model_eq_noTag gen lr nE nS dir tag p reinit hfalse]
      constructor
      · exact ⟨0, rfl⟩
      · constructor
        · rintro - ⟨q, hq, hq2, -⟩
          cases hq
          rw [hfalse] at hq2
          exact Bool.false_ne_true hq2
        · intro h
          simp

/-- Witness for C6: a fresh wl2 run compiles and ends with the fit call. -/
theorem train_model_compile_then_fit_witness :
    (∃ e0, (train_model 0 1 3 4 "m" "wl2" none false).events.getLast? =
      some (Event.fit 0 3 4 (checkpointCallbacks "m" "wl2") e0)) ∧
    ((Event.compile 1 ∈ (train_model 0 1 3 4 "m" "wl2" none false).events) ↔
      ¬ ∃ p, (none : Option String) = some p ∧ pyIn "wl2" p = true ∧
        (false : Bool) = false) :=
  train_model_compile_then_fit 0 1 3 4 "m" "wl2" none false (by decide)

/-! ## Trace shape lemmas -/

theorem train_model_tail_events (gen : Nat) (lr : Rat) (nE nS : Int)
    (dir tag : String) (pc : Option String) (reinit : Bool) :
    (train_model gen lr nE nS dir tag pc reinit).events.filter
        isConstructGenEvent = [] ∧
    (train_model gen lr nE nS dir tag pc reinit).events.filter
        isBuildInputGenEvent = [] ∧
    ∀ ev ∈ (train_model gen lr nE nS dir tag pc reinit).events,
      ∀ g a b cbs i, ev = Event.fit g a b cbs i →
        g = gen ∧ cbs = checkpointCallbacks dir tag := by
  cases pc with
  | none =>
    rw [train_model_eq_fresh]
    refine ⟨rfl, rfl, ?_⟩
    intro ev hev g a b cbs i hfit
    subst hfit
    simp only [List.mem_cons, List.not_mem_nil, or_false, reduceCtorEq,
      false_or, Event.fit.injEq] at hev
    exact ⟨hev.1, hev.2.2.2.1⟩
  | some p =>
    by_cases hin : pyIn tag p = true
    · cases hq : parseEpoch tag p with
      | raised err =>
        rw [train_model_eq_raise gen lr nE nS dir tag p err reinit hin hq]
        refine ⟨rfl, rfl, ?_⟩
        intro ev hev g a b cbs i hfit
        subst hfit
        simp at hev
      | ok n =>
        cases reinit with
        | false =>
          rw [train_model_eq_load gen lr nE nS dir tag p n hin hq]
          refine ⟨rfl, rfl, ?_⟩
          intro ev hev g a b cbs i hfit
          subst hfit
          simp only [List.mem_cons, List.not_mem_nil, or_false, reduceCtorEq,
            false_or, Event.fit.injEq] at hev
          exact ⟨hev.1, hev.2.2.2.1⟩
        | true =>
          rw [train_model_eq_weights gen lr nE nS dir tag p n hin hq]
          refine ⟨rfl, rfl, ?_⟩
          intro ev hev g a b cbs i hfit
          subst hfit
          simp only [List.mem_cons, List.not_mem_nil, or_false, reduceCtorEq,
            false_or, Event.fit.injEq] at hev
          exact ⟨hev.1, hev.2.2.2.1⟩
    · have hfalse : pyIn tag p = false := by simpa using hin
      rw [train_model_eq_noTag gen lr nE nS dir tag p reinit hfalse]
      refine ⟨rfl, rfl, ?_⟩
      intro ev hev g a b cbs i hfit
      subst hfit
      simp only [List.mem_cons, List.not_mem_nil, or_false, reduceCtorEq,
        false_or, Event.fit.injEq] at hev
      exact ⟨hev.1, hev.2.2.2.1⟩

theorem training_trace_decomp (env : Env) (cfg : TrainConfig)
    (hp : cfg.wl2_epochs > 0 ∨ cfg.dice_epochs > 0) :
    ∃ tail, (training env cfg).events = setupEvents env cfg ++ tail ∧
      tail.filter isConstructGenEvent = [] ∧
      tail.filter isBuildInputGenEvent = [] ∧
      ∀ ev ∈ tail, ∀ g a b cbs i, ev = Event.fit g a b cbs i →
        g = 0 ∧ (cbs = checkpointCallbacks cfg.model_dir "wl2" ∨
                 cbs = checkpointCallbacks cfg.model_dir "dice") := by
  unfold training
  rw [if_pos hp]
  by_cases hw : cfg.wl2_epochs > 0
  · rw [if_pos hw]
    dsimp only
    cases he : (train_model 0 cfg.lr cfg.wl2_epochs cfg.steps_per_epoch
        cfg.model_dir "wl2" cfg.checkpoint false).error with
    | some e =>
      dsimp only
      obtain ⟨hf1, hf2, hfit⟩ := train_model_tail_events 0 cfg.lr
        cfg.wl2_epochs cfg.steps_per_epoch cfg.model_dir "wl2"
        cfg.checkpoint false
      refine ⟨_, rfl, hf1, hf2, ?_⟩
      intro ev hev g a b cbs i hf
      exact ⟨(hfit ev hev g a b cbs i hf).1,
        Or.inl (hfit ev hev g a b cbs i hf).2⟩
    | none =>
      dsimp only
      obtain ⟨hf1, hf2, hfit⟩ := train_model_tail_events 0 cfg.lr
        cfg.wl2_epochs cfg.steps_per_epoch cfg.model_dir "wl2"
        cfg.checkpoint false
      obtain ⟨hg1, hg2, hgit⟩ := train_model_tail_events 0 cfg.lr
        cfg.dice_epochs cfg.steps_per_epoch cfg.model_dir "dice"
        (some (osPathJoin cfg.model_dir
          (checkpointBasename "wl2" cfg.wl2_epochs))) false
      refine ⟨_, List.append_assoc _ _ _, ?_, ?_, ?_⟩
      · rw [List.filter_append, hf1, hg1]; rfl
      · rw [List.filter_append, hf2, hg2]; rfl
      · intro ev hev g a b cbs i hf
        rcases List.mem_append.mp hev with h1 | h2
        · exact ⟨(hfit ev h1 g a b cbs i hf).1,
            Or.inl (hfit ev h1 g a b cbs i hf).2⟩
        · exact ⟨(hgit ev h2 g a b cbs i hf).1,
            Or.inr (hgit ev h2 g a b cbs i hf).2⟩
  · rw [if_neg hw]
    dsimp only
    obtain ⟨hg1, hg2, hgit⟩ := train_model_tail_events 0 cfg.lr
      cfg.dice_epochs cfg.steps_per_epoch cfg.model_dir "dice"
      cfg.checkpoint false
    refine ⟨_, rfl, hg1, hg2, ?_⟩
    intro ev hev g a b cbs i hf
    exact ⟨(hgit ev hev g a b cbs i hf).1,
      Or.inr (hgit ev hev g a b cbs i hf).2⟩

/-- C7: in every run past the epoch check, the trace starts with exactly the
construction of the BrainGenerator, the U-Net and the single input
generator (id 0), in that order; the remainder of the run constructs no
further generator and no further input generator, and every fitting call —
in the wl2 phase as in the dice phase — consumes generator 0. -/
theorem generator_constructed_once_before_fit (env : Env) (cfg : TrainConfig)
    (hp : cfg.wl2_epochs > 0 ∨ cfg.dice_epochs > 0) :
    ∃ tail,
      (training env cfg).events =
        Event.constructGenerator (2 ^ cfg.n_levels)
            (resolvedSegLabels env cfg) ::
          Event.buildUnet (npUniqueLen (resolvedSegLabels env cfg))
            cfg.n_levels ::
            Event.buildInputGenerator 0 :: tail ∧
      tail.filter isConstructGenEvent = [] ∧
      tail.filter isBuildInputGenEvent = [] ∧
      ∀ ev ∈ (training env cfg).events, ∀ g a b cbs i,
        ev = Event.fit g a b cbs i → g = 0 := by
  obtain ⟨tail, hev, h1, h2, h3⟩ := training_trace_decomp env cfg hp
  refine ⟨tail, by rw [hev]; rfl, h1, h2, ?_⟩
  intro ev hmem g a b cbs i hfit
  rw [hev] at hmem
  rcases List.mem_append.mp hmem with hs | ht
  · subst hfit
    simp [setupEvents] at hs
  · exact (h3 ev ht g a b cbs i hfit).1

/-- Witness for C7 at a concrete configuration with both phases enabled. -/
theorem generator_constructed_once_before_fit_witness :
    ∃ tail,
      (training envW cfgBasic).events =
        Event.constructGenerator (2 ^ cfgBasic.n_levels)
            (resolvedSegLabels envW cfgBasic) ::
          Event.buildUnet (npUniqueLen (resolvedSegLabels envW cfgBasic))
            cfgBasic.n_levels ::
            Event.buildInputGenerator 0 :: tail ∧
      tail.filter isConstructGenEvent = [] ∧
      tail.filter isBuildInputGenEvent = [] ∧
      ∀ ev ∈ (training envW cfgBasic).events, ∀ g a b cbs i,
        ev = Event.fit g a b cbs i → g = 0 :=
  generator_constructed_once_before_fit envW cfgBasic (by decide)

/-- C3: every fitting call of a training run installs, as its first
callback, the per-epoch model saver whose filepath is model_dir joined with
the metric tag (wl2 or dice) followed by the epoch placeholder and the .h5
extension; instantiating the placeholder at any epoch yields the tag, an
underscore, the zero-padded three-digit epoch number and the extension. -/
theorem phase_snapshot_callback_pattern (env : Env) (cfg : TrainConfig)
    (hp : cfg.wl2_epochs > 0 ∨ cfg.dice_epochs > 0) :
    (∀ ev ∈ (training env cfg).events, ∀ g a b cbs i,
      ev = Event.fit g a b cbs i →
        cbs.head? = some (Callback.modelCheckpoint
          (saveFilePattern cfg.model_dir "wl2")) ∨
        cbs.head? = some (Callback.modelCheckpoint
          (saveFilePattern cfg.model_dir "dice"))) ∧
    (∀ e : Int, instEpochPat "wl2_\x7bepoch:03d\x7d.h5" e =
        checkpointBasename "wl2" e ∧
      instEpochPat "dice_\x7bepoch:03d\x7d.h5" e =
        checkpointBasename "dice" e) := by
  constructor
  · obtain ⟨tail, hev, -, -, h3⟩ := training_trace_decomp env cfg hp
    intro ev hmem g a b cbs i hfit
    rw [hev] at hmem
    rcases List.mem_append.mp hmem with hs | ht
    · subst hfit
      simp [setupEvents] at hs
    · rcases (h3 ev ht g a b cbs i hfit).2 with hc | hc
      · left; rw [hc]; rfl
      · right; rw [hc]; rfl
  · intro e
    exact ⟨rfl, rfl⟩

/-- Witness for C3 at a concrete configuration with both phases enabled. -/
theorem phase_snapshot_callback_pattern_witness :
    (∀ ev ∈ (training envW cfgBasic).events, ∀ g a b cbs i,
      ev = Event.fit g a b cbs i →
        cbs.head? = some (Callback.modelCheckpoint
          (saveFilePattern cfgBasic.model_dir "wl2")) ∨
        cbs.head? = some (Callback.modelCheckpoint
          (saveFilePattern cfgBasic.model_dir "dice"))) ∧
    (∀ e : Int, instEpochPat "wl2_\x7bepoch:03d\x7d.h5" e =
        checkpointBasename "wl2" e ∧
      instEpochPat "dice_\x7bepoch:03d\x7d.h5" e =
        checkpointBasename "dice" e) :=
  phase_snapshot_callback_pattern envW cfgBasic (by decide)

/-- C9: when segmentation_labels is omitted it defaults to the resolved
generation_labels, and the U-Net is always built with a number of output
classes equal to the number of unique values of the resolved
segmentation_labels, so generation labels merged onto one output label
contribute a single network class. -/
theorem unet_output_classes_unique_seg_labels (env : Env) (cfg : TrainConfig)
    (hp : cfg.wl2_epochs > 0 ∨ cfg.dice_epochs > 0) :
    Event.buildUnet (npUniqueLen (resolvedSegLabels env cfg)) cfg.n_levels
        ∈ (training env cfg).events ∧
    (cfg.segmentation_labels = none →
      resolvedSegLabels env cfg = resolvedGenLabels env cfg) := by
  constructor
  · obtain ⟨tail, hev, -, -, -⟩ := training_trace_decomp env cfg hp
    rw [hev]
    apply List.mem_append_left
    simp [setupEvents]
  · intro h
    simp [resolvedSegLabels, h]

/-- Witness for C9 at a concrete configuration with omitted
segmentation_labels. -/
theorem unet_output_classes_unique_seg_labels_witness :
    Event.buildUnet (npUniqueLen (resolvedSegLabels envW cfgDiceOnly))
        cfgDiceOnly.n_levels ∈ (training envW cfgDiceOnly).events ∧
    (cfgDiceOnly.segmentation_labels = none →
      resolvedSegLabels envW cfgDiceOnly = resolvedGenLabels envW cfgDiceOnly) :=
  unet_output_classes_unique_seg_labels envW cfgDiceOnly (by decide)

/-- C10: the trace of every run past the epoch check contains the
BrainGenerator construction with output_div_by_n equal to 2 to the power
n_levels and the U-Net construction with the same n_levels as its number of
levels. -/
theorem output_div_matches_unet_levels (env : Env) (cfg : TrainConfig)
    (hp : cfg.wl2_epochs > 0 ∨ cfg.dice_epochs > 0) :
    Event.constructGenerator (2 ^ cfg.n_levels) (resolvedSegLabels env cfg)
        ∈ (training env cfg).events ∧
    Event.buildUnet (npUniqueLen (resolvedSegLabels env cfg)) cfg.n_levels
        ∈ (training env cfg).events := by
  obtain ⟨tail, hev, -, -, -⟩ := training_trace_decomp env cfg hp
  rw [hev]
  constructor <;> (apply List.mem_append_left; simp [setupEvents])

/-- Witness for C10 at a concrete configuration. -/
theorem output_div_matches_unet_levels_witness :
    Event.constructGenerator (2 ^ cfgDiceOnly.n_levels)
        (resolvedSegLabels envW cfgDiceOnly)
        ∈ (training envW cfgDiceOnly).events ∧
    Event.buildUnet (npUniqueLen (resolvedSegLabels envW cfgDiceOnly))
        cfgDiceOnly.n_levels ∈ (training envW cfgDiceOnly).events :=
  output_div_matches_unet_levels envW cfgDiceOnly (by decide)

/-- C5 counterexample: with wl2_epochs = 1, dice_epochs = 1 and a
user-supplied checkpoint wl2/model.h5 (the wl2 tag occurs in the directory
name only), the wl2 phase raises IndexError while parsing the checkpoint
basename, so the run performs no fitting call at all and the dice phase
never runs — refuting that the dice phase always follows the wl2 phase. -/
theorem dice_phase_not_always_reached_cex :
    cfgWl2Crash.wl2_epochs > 0 ∧ cfgWl2Crash.dice_epochs > 0 ∧
    (training envW cfgWl2Crash).events.filter isFitEvent = [] ∧
    (training envW cfgWl2Crash).error = some PyError.indexError :=
  ⟨by decide, by decide, by rfl, by rfl⟩

/-- C5 (amended): with wl2_epochs > 0 the wl2 phase runs first on the
user-supplied checkpoint and, provided it does not raise, the dice phase
then runs for dice_epochs epochs resuming from the final wl2 snapshot
model_dir joined with wl2_ plus the zero-padded three-digit wl2_epochs plus
.h5, replacing any user-supplied checkpoint; with wl2_epochs ≤ 0 the dice
phase runs directly on the user-supplied checkpoint. -/
theorem training_phase_sequencing_amended (env : Env) (cfg : TrainConfig) :
    (cfg.wl2_epochs > 0 →
      (train_model 0 cfg.lr cfg.wl2_epochs cfg.steps_per_epoch cfg.model_dir
          "wl2" cfg.checkpoint false).error = none →
      training env cfg =
        ⟨setupEvents env cfg ++
            (train_model 0 cfg.lr cfg.wl2_epochs cfg.steps_per_epoch
              cfg.model_dir "wl2" cfg.checkpoint false).events ++
            (train_model 0 cfg.lr cfg.dice_epochs cfg.steps_per_epoch
              cfg.model_dir "dice"
              (some (osPathJoin cfg.model_dir
                (checkpointBasename "wl2" cfg.wl2_epochs))) false).events,
          (train_model 0 cfg.lr cfg.dice_epochs cfg.steps_per_epoch
            cfg.model_dir "dice"
            (some (osPathJoin cfg.model_dir
              (checkpointBasename "wl2" cfg.wl2_epochs))) false).error⟩) ∧
    (cfg.wl2_epochs ≤ 0 → cfg.dice_epochs > 0 →
      training env cfg =
        ⟨setupEvents env cfg ++
            (train_model 0 cfg.lr cfg.dice_epochs cfg.steps_per_epoch
              cfg.model_dir "dice" cfg.checkpoint false).events,
          (train_model 0 cfg.lr cfg.dice_epochs cfg.steps_per_epoch
            cfg.model_dir "dice" cfg.checkpoint false).error⟩) := by
  constructor
  · intro hw hok
    unfold training
    rw [if_pos (Or.inl hw), if_pos hw]
    dsimp only
    rw [hok]
  · intro hw hd
    unfold training
    rw [if_pos (Or.inr hd), if_neg (by omega)]

/-- Witness for the amended C5 at a concrete two-plus-three epoch
configuration without a user checkpoint. -/
theorem training_phase_sequencing_amended_witness :
    training envW cfgBasic =
      ⟨setupEvents envW cfgBasic ++
          (train_model 0 cfgBasic.lr cfgBasic.wl2_epochs
            cfgBasic.steps_per_epoch cfgBasic.model_dir "wl2"
            cfgBasic.checkpoint false).events ++
          (train_model 0 cfgBasic.lr cfgBasic.dice_epochs
            cfgBasic.steps_per_epoch cfgBasic.model_dir "dice"
            (some (osPathJoin cfgBasic.model_dir
              (checkpointBasename "wl2" cfgBasic.wl2_epochs))) false).events,
        (train_model 0 cfgBasic.lr cfgBasic.dice_epochs
          cfgBasic.steps_per_epoch cfgBasic.model_dir "dice"
          (some (osPathJoin cfgBasic.model_dir
            (checkpointBasename "wl2" cfgBasic.wl2_epochs))) false).error⟩ :=
  (training_phase_sequencing_amended envW cfgBasic).1 (by decide) (by rfl)
